import Mathlib

/-!
Verification development for the GraphReactApp repository: a shallow
embedding of the client-side knowledge-graph rendering and interaction
model, the upload / query panels, and the db-config route, together with
theorems settling the behavioural claims of the specification.

The repository ships two divergent variants of several components
(the specification's design notes acknowledge this).  Where a claim cites
both variants, both are embedded; definitions are suffixed `1` for the
first variant in a file and `2` for the second.
-/

namespace GraphApp

/-! ## Data model (`shared` types consumed by the renderer)

`Node`: `{id, label, name, properties}` plus the transient layout fields
the force simulation and the drag handlers write (`x`, `y` positions and
`fx`, `fy` pin coordinates, absent until assigned).  Coordinates are
modelled as integers; nothing in the claims depends on fractional values. -/

structure Node where
  id : String
  label : String
  name : String
  properties : List (String × String) := []
  x : Option Int := none
  y : Option Int := none
  fx : Option Int := none
  fy : Option Int := none
deriving Repr, DecidableEq

/-- `Link`: `{id, source, target, type, properties}`; `source`/`target`
are node-id strings as delivered on the wire. -/
structure Link where
  id : String
  source : String
  target : String
  type : String
  properties : List (String × String) := []
deriving Repr, DecidableEq

/-- `GraphData`: the `{nodes, links}` envelope, the sole wire contract. -/
structure GraphData where
  nodes : List Node
  links : List Link
deriving Repr, DecidableEq

/-! ## Renderer variant 1: node styling
(`GraphVisualization.tsx`, `calculateNodeRadius` lines 191-202,
`getNodeColor` lines 204-218). -/

/-- Embeds `calculateNodeRadius`: base size 7, with fixed increments for
the Document / Person / Organization labels; the function receives the
node but reads only its `label`. -/
def calculateNodeRadius (node : Node) : Nat :=
  let baseSize := 7
  if node.label = "Document" then baseSize + 5
  else if node.label = "Person" then baseSize + 3
  else if node.label = "Organization" then baseSize + 2
  else baseSize

/-- What the JS expression `colors[label] || "#a16207"` can evaluate to:
a color string (an own value of the `colors` record, or the fallback
literal), or a truthy value inherited from `Object.prototype` — the
`colors` object literal inherits the prototype, so a label naming one of
its members makes `colors[label]` a function (or, for `__proto__`, an
object), which is truthy and is returned instead of the fallback. -/
inductive NodeFill where
  | color (c : String)
  | inherited (memberName : String)
deriving Repr, DecidableEq

/-- The member names an object literal inherits from `Object.prototype`
in browser / node runtimes (the ECMAScript core members plus the
Annex B accessor helpers); each evaluates to a truthy function or
object. -/
def objectProtoKeys : List String :=
  ["constructor", "hasOwnProperty", "isPrototypeOf", "propertyIsEnumerable",
   "toLocaleString", "toString", "valueOf", "__proto__",
   "__defineGetter__", "__defineSetter__", "__lookupGetter__",
   "__lookupSetter__"]

/-- Embeds `getNodeColor`: the property lookup `colors[label]` — own
keys first, then the inherited `Object.prototype` members, all truthy —
with `|| "#a16207"` applying only when the lookup yields `undefined`. -/
def getNodeColor (label : String) : NodeFill :=
  if label = "Person" then .color "#4f46e5"
  else if label = "Organization" then .color "#0ea5e9"
  else if label = "Location" then .color "#10b981"
  else if label = "Document" then .color "#f97316"
  else if label = "Concept" then .color "#8b5cf6"
  else if label = "Chunk" then .color "#ec4899"
  else if label = "Metadata" then .color "#6b7280"
  else if label = "Entity" then .color "#ef4444"
  else if label ∈ objectProtoKeys then .inherited label
  else .color "#a16207"

/-- The keys of the `colors` record in `getNodeColor`. -/
def recognizedLabels : List String :=
  ["Person", "Organization", "Location", "Document", "Concept", "Chunk",
   "Metadata", "Entity"]

/-! ## Renderer variant 1: drawn element sets
(`GraphVisualization.tsx` lines 66-73 bind `data.links` to the line
selection unfiltered; lines 90-105 bind `data.nodes` to the circle
selection; lines 122-128 pass the same unfiltered `data.links` to the
link force). -/

/-- One `<line>` element of the edge selection, keyed by the link it was
data-joined from, carrying the midpoint text label (`d.type`). -/
structure EdgeShape where
  linkId : String
  typeText : String
deriving Repr, DecidableEq

/-- One `<circle>` element of the node selection with its computed
radius and fill attributes. -/
structure NodeShape where
  nodeId : String
  radius : Nat
  fill : NodeFill
deriving Repr, DecidableEq

/-- Embeds the edge data join `selectAll("line").data(data.links).enter()
.append("line")` (lines 66-73): one line per element of `data.links`,
with no filtering of any kind. -/
def drawnEdges (d : GraphData) : List EdgeShape :=
  d.links.map (fun l => { linkId := l.id, typeText := l.type })

/-- Embeds the node data join (lines 90-98): one circle per element of
`data.nodes`, with radius and fill from the helpers above. -/
def drawnNodeCircles (d : GraphData) : List NodeShape :=
  d.nodes.map (fun n =>
    { nodeId := n.id, radius := calculateNodeRadius n,
      fill := getNodeColor n.label })

/-- Whether a node with the given id exists in the payload. -/
def hasNode (d : GraphData) (i : String) : Bool :=
  d.nodes.any (fun n => n.id = i)

/-- Spec-side definition, taken from the specification's words rather
than the source, for comparison with `drawnEdges`: the links whose
`source` and `target` ids are both present among `nodes` (the set the
spec says is drawn). -/
def linksWithEndpoints (d : GraphData) : List Link :=
  d.links.filter (fun l => hasNode d l.source && hasNode d l.target)

/-! ## Renderer effect guards and empty state

Variant 1 (lines 30-31): `if (!svgRef.current || !data.nodes.length)
return;` — a zero-length node array short-circuits the whole effect, so
no force simulation is created.  Lines 296-308 render the placeholder
div instead of the `<svg>` exactly when `data.nodes.length === 0`.

Variant 2 (lines 355-362): `if (!svgRef.current || !data || !data.nodes
|| !data.links) return;` — in JS an empty array is truthy, so the guard
only checks that the fields are present; the effect then reaches
`d3.forceSimulation(data.nodes)` even for zero nodes.  The empty-state
overlay (lines 661-671) shows when `!data || !data.nodes ||
data.nodes.length === 0`. -/

/-- Variant 1 effect guard: the effect body runs iff `data.nodes.length`
is non-zero (truthiness of a number). -/
def effectRuns1 (d : GraphData) : Bool :=
  !(d.nodes.length == 0)

/-- Variant 1: `d3.forceSimulation` (line 122) executes iff the guard
passed. -/
def simulationStarted1 (d : GraphData) : Bool :=
  effectRuns1 d

/-- Variant 1: the placeholder replaces the svg iff `nodes.length === 0`
(line 298). -/
def placeholderShown1 (d : GraphData) : Bool :=
  d.nodes.length == 0

/-- A payload as variant 2's guard sees it: the `nodes` / `links` fields
may themselves be absent (modelled as `Option`), which is all the guard
tests. -/
structure RawGraphData where
  nodes : Option (List Node)
  links : Option (List Link)
deriving Repr, DecidableEq

/-- Variant 2 effect guard (line 356): runs iff `data` and both of its
array fields are present; an empty array is truthy and passes. -/
def effectRuns2 (d : Option RawGraphData) : Bool :=
  match d with
  | none => false
  | some g => g.nodes.isSome && g.links.isSome

/-- Variant 2: `d3.forceSimulation` (line 462) executes iff the guard
passed. -/
def simulationStarted2 (d : Option RawGraphData) : Bool :=
  effectRuns2 d

/-- Variant 2 empty-state overlay condition (line 661):
`!data || !data.nodes || data.nodes.length === 0`. -/
def placeholderShown2 (d : Option RawGraphData) : Bool :=
  match d with
  | none => true
  | some g =>
    match g.nodes with
    | none => true
    | some ns => ns.length == 0

/-! ## Renderer variant 1: in-place mutation of the caller's nodes

The component never copies `data.nodes`: line 122 hands the caller's
array to `d3.forceSimulation`, the drag handlers (lines 167-182) write
`fx`/`fy` through `event.subject`, which the d3 data join binds to the
very node objects of `data.nodes`, and `handleReset` (lines 271-274)
iterates `data.nodes.forEach` setting `node.fx = null; node.fy = null`.
The functions below embed those writes; because the objects are shared
by reference, their output is what the caller's nodes become. -/

/-- Embeds `dragStarted` on `event.subject` (lines 169-170):
`fx = x; fy = y`. -/
def dragStartedSubject (n : Node) : Node :=
  { n with fx := n.x, fy := n.y }

/-- Embeds `dragged` on `event.subject` (lines 174-175): pin at the
cursor position. -/
def draggedSubject (px py : Int) (n : Node) : Node :=
  { n with fx := some px, fy := some py }

/-- Embeds `dragEnded` on `event.subject` (lines 180-181): unpin. -/
def dragEndedSubject (n : Node) : Node :=
  { n with fx := none, fy := none }

/-- Embeds the `data.nodes.forEach` of `handleReset` (lines 271-274):
clear the pin coordinates of every node of the caller's array. -/
def handleResetNodes (ns : List Node) : List Node :=
  ns.map (fun n => { n with fx := none, fy := none })

/-- The caller's `data.nodes` after `handleReset` ran: the forEach wrote
through the shared references, so the caller observes the updated
nodes. -/
def callerNodesAfterReset (d : GraphData) : List Node :=
  handleResetNodes d.nodes

/-! ## Renderer variant 2: selection state machine

(`GraphVisualization.tsx`, second variant: link click lines 406-410,
node click lines 434-438, background click lines 456-459.)  The click
handlers on nodes and links call `event.stopPropagation()`, so each
click fires exactly one of the three transitions. -/

/-- The pair of `useState` selection cells. -/
structure Selection where
  node : Option Node
  link : Option Link
deriving Repr, DecidableEq

/-- Initial selection state: `useState<Node|null>(null)` twice. -/
def initSelection : Selection := { node := none, link := none }

/-- A click event as the handlers see it. -/
inductive UiEvent where
  | clickNode (n : Node)
  | clickLink (l : Link)
  | clickCanvas
deriving Repr, DecidableEq

/-- One click transition: a node click does `setSelectedLink(null);
setSelectedNode(d)`, a link click does `setSelectedNode(null);
setSelectedLink(d)`, a background click clears both. -/
def selectionStep (_s : Selection) (e : UiEvent) : Selection :=
  match e with
  | .clickNode n => { node := some n, link := none }
  | .clickLink l => { node := none, link := some l }
  | .clickCanvas => { node := none, link := none }

/-- Run a sequence of clicks from a starting state. -/
def runClicks (s : Selection) (es : List UiEvent) : Selection :=
  es.foldl selectionStep s

/-- At most one entity is selected. -/
def atMostOneSelected (s : Selection) : Prop :=
  s.node = none ∨ s.link = none

/-! ## Zoom transforms

d3's `Transform` is `{k, x, y}` with (per the library's documented
semantics) `t.scale(m) = {k*m, x, y}`, `t.translate(dx,dy) =
{k, x + k*dx, y + k*dy}` and `zoomIdentity = {1, 0, 0}`.  Scales are
embedded as rationals.

Variant 1 (lines 236-258): each handler reads the React state
`zoomTransform` (`|| d3.zoomIdentity`) and computes
`currentTransform.scale(currentTransform.k * 1.3)` — the argument of
`scale` is itself `k * 1.3`, so the applied scale is `k * (k * 1.3)` —
or likewise with `currentTransform.k / 1.3`.  The fresh zoom behaviour
each handler builds carries no "zoom" listener and no extent
constraint: its `zoom.transform` call writes the element's registered
transform (`__zoom`) as computed, but `setZoomTransform` — registered
only on the effect's behaviour (line 54) — never fires, so the
`zoomTransform` state (and the on-screen `g` attribute, also written
only by that listener) is never updated by these buttons; every click
reads the same stale state.  `handleReset` (line 267) applies
`d3.zoomIdentity`.

Variant 2 (lines 540-563): `handleZoomIn` / `handleZoomOut` call
`scaleBy` with factors `1.2` and `0.8` on a fresh default zoom
behaviour (default extent, no clamping), multiplying the current scale;
`handleReset` applies the constant transform
`zoomIdentity.translate(w/2,h/2).scale(0.8).translate(-w/2,-h/2)`. -/

/-- A d3 zoom transform `{k, x, y}`. -/
structure ZoomTransform where
  k : ℚ
  x : ℚ
  y : ℚ
deriving Repr, DecidableEq

/-- `d3.zoomIdentity`. -/
def zoomIdentity : ZoomTransform := { k := 1, x := 0, y := 0 }

/-- `t.scale(m)`. -/
def tScale (t : ZoomTransform) (m : ℚ) : ZoomTransform :=
  { t with k := t.k * m }

/-- `t.translate(dx, dy)`. -/
def tTranslate (t : ZoomTransform) (dx dy : ℚ) : ZoomTransform :=
  { t with x := t.x + t.k * dx, y := t.y + t.k * dy }

/-- Variant 1 zoom interaction state: `zoomTransform` is the React
state cell, written only by the effect behaviour's "zoom" listener
(line 54), and `applied` is the element's registered view transform
(`__zoom`), which every `zoom.transform` call writes.  The button
handlers update `applied` but can never write `zoomTransform`: their
fresh behaviours have no listener. -/
structure ZoomState where
  zoomTransform : Option ZoomTransform
  applied : ZoomTransform
deriving Repr, DecidableEq

/-- The `currentTransform` each variant 1 handler computes:
`zoomTransform || d3.zoomIdentity` (lines 242 and 254). -/
def currentTransform1 (s : ZoomState) : ZoomTransform :=
  s.zoomTransform.getD zoomIdentity

/-- Variant 1 `handleZoomIn` (lines 236-246): applies
`currentTransform.scale(currentTransform.k * 1.3)` through a fresh
listenerless behaviour — `applied` changes, the state does not. -/
def handleZoomIn1 (s : ZoomState) : ZoomState :=
  let current := currentTransform1 s
  { s with applied := tScale current (current.k * (13/10)) }

/-- Variant 1 `handleZoomOut` (lines 248-258): likewise with
`currentTransform.scale(currentTransform.k / 1.3)`. -/
def handleZoomOut1 (s : ZoomState) : ZoomState :=
  let current := currentTransform1 s
  { s with applied := tScale current (current.k / (13/10)) }

/-- Variant 1 `handleReset` zoom part (line 267): applies the constant
`d3.zoomIdentity`, whatever the prior state. -/
def handleResetZoom1 (s : ZoomState) : ZoomState :=
  { s with applied := zoomIdentity }

/-- A freshly mounted component with at most 10 nodes: no zoom event
has fired (`zoomTransform` is still `null`) and the element transform
is the identity. -/
def freshMountState : ZoomState :=
  { zoomTransform := none, applied := zoomIdentity }

/-- Variant 2 `handleZoomIn` (line 542): `scaleBy 1.2` on the current
scale. -/
def zoomInScale2 (k : ℚ) : ℚ := k * (12/10)

/-- Variant 2 `handleZoomOut` (line 548): `scaleBy 0.8`. -/
def zoomOutScale2 (k : ℚ) : ℚ := k * (8/10)

/-- Variant 2 `handleReset` (lines 556-562): the constant transform
`zoomIdentity.translate(w/2,h/2).scale(0.8).translate(-w/2,-h/2)`,
independent of the prior transform. -/
def resetView2 (w h : ℚ) : ZoomTransform :=
  tTranslate (tScale (tTranslate zoomIdentity (w/2) (h/2)) (8/10)) (-(w/2)) (-(h/2))

/-! ## Upload panel (`FileUpload`, `src/unnamed/part_001`)

`validateFile` (lines 52-96): a fixed MIME allow-list, a lowercase
extension allow-list, and a 15 MB ceiling; the type check runs first,
then the size check; each failure calls `setError` with a fixed message
and returns `false`.  `uploadFiles` (lines 98-161) loops over the
selected files with `await` inside the loop (one transfer in flight);
validation failures `continue`; the whole loop sits in one `try` block,
so a rejected `fileAPI.uploadFile` promise jumps to the `catch`,
which sets an error and ends the loop — the remaining files are never
attempted. -/

/-- A selected file as the validator sees it: name, MIME type, byte
size. -/
structure UFile where
  name : String
  type : String
  size : Nat
deriving Repr, DecidableEq

/-- The `allowedTypes` MIME list (lines 53-74). -/
def allowedTypes : List String :=
  ["application/pdf",
   "application/vnd.openxmlformats-officedocument.wordprocessingml.document",
   "application/msword",
   "text/plain",
   "image/jpeg",
   "image/png",
   "image/tiff",
   "application/json",
   "application/ld+json",
   "text/csv",
   "application/vnd.ms-excel",
   "application/vnd.openxmlformats-officedocument.spreadsheetml.sheet",
   "text/tab-separated-values",
   "application/xml",
   "text/xml"]

/-- The `validExtensions` list (lines 78-79), checked with `endsWith` on
the lowercased file name. -/
def validExtensions : List String :=
  [".pdf", ".jpg", ".jpeg", ".png", ".tiff", ".txt", ".doc",
   ".docx", ".json", ".csv", ".xls", ".xlsx", ".tsv", ".xml"]

/-- `maxSize = 15 * 1024 * 1024` (line 83). -/
def maxSize : Nat := 15 * 1024 * 1024

/-- JS `String.prototype.toLowerCase` on the ASCII names involved:
lowercase each character. -/
def jsToLower (s : String) : String :=
  String.mk (s.data.map Char.toLower)

/-- JS `String.prototype.endsWith`: the pattern is a suffix of the
string. -/
def jsEndsWith (s pat : String) : Bool :=
  pat.data.isSuffixOf s.data

/-- Embeds `validateFile` (lines 52-96); returns the `setError` message
when the file is rejected, `none` when it passes.  The type/extension
check precedes the size check, as in the source. -/
def validateFile (f : UFile) : Option String :=
  let fileName := jsToLower f.name
  let hasValidExt := validExtensions.any (fun e => jsEndsWith fileName e)
  if !(allowedTypes.contains f.type) && !hasValidExt then
    some "Unsupported file type. Please upload PDF, image, document, or data files (JSON, CSV, etc.)."
  else if f.size > maxSize then
    some "File is too large. Maximum file size is 15MB."
  else
    none

/-- What `fileAPI.uploadFile` does for a given file: resolve or
reject. -/
inductive UploadOutcome where
  | ok
  | fail
deriving Repr, DecidableEq

/-- Observable result of one `uploadFiles` run: the files for which
`fileAPI.uploadFile` was actually invoked, in invocation order; the
error message on display when the handler returns (last `setError`);
and whether the loop ran to completion (form reset and `onComplete`
fired). -/
structure UploadTrace where
  attempted : List UFile
  errorMsg : Option String
  completed : Bool
deriving Repr, DecidableEq

/-- Embeds the `for` loop body of `uploadFiles` (lines 107-137) plus the
surrounding `try`/`catch`: `err` is the error state carried into the
iteration.  A validation failure stores its message and continues; a
successful upload proceeds; a rejected upload hits the `catch`
(lines 149-157), which sets the fixed message and ends the run without
touching the remaining files. -/
def uploadLoop (outcome : UFile → UploadOutcome) :
    List UFile → Option String → UploadTrace
  | [], _err => { attempted := [], errorMsg := _err, completed := true }
  | f :: rest, err =>
    match validateFile f with
    | some msg => uploadLoop outcome rest (some msg)
    | none =>
      match outcome f with
      | .ok =>
        let t := uploadLoop outcome rest err
        { t with attempted := f :: t.attempted }
      | .fail =>
        { attempted := [f],
          errorMsg := some "An error occurred while uploading the file. Please try again.",
          completed := false }

/-- Embeds `uploadFiles` (lines 98-161): the empty-selection guard
(lines 99-102) then the loop. -/
def uploadFiles (outcome : UFile → UploadOutcome) (files : List UFile) :
    UploadTrace :=
  if files.isEmpty then
    { attempted := [], errorMsg := some "Please select files to upload.",
      completed := false }
  else
    uploadLoop outcome files none

/-! ## Query panel (`QueryInput.tsx`, both variants)

Both `handleSubmit` implementations (lines 19-32 and 112-135) guard on
`!query.trim()` — for a string, falsy means empty — showing the
validation toast and returning before `onSubmit` is invoked; neither
path writes the `query` state, and the second variant explicitly keeps
the text after `await onSubmit(query)` settles, in the `catch` as well. -/

/-- JS `String.prototype.trim`: strip leading and trailing whitespace. -/
def jsTrim (s : String) : String :=
  String.mk
    (((s.data.dropWhile Char.isWhitespace).reverse.dropWhile
      Char.isWhitespace).reverse)

/-- Outcome of the `onSubmit` promise (the query network call). -/
inductive QueryOutcome where
  | ok
  | fail
deriving Repr, DecidableEq

/-- Observable result of one `handleSubmit` run. -/
structure SubmitResult where
  networkCalled : Bool
  validationToast : Bool
  failureToast : Bool
  queryAfter : String
deriving Repr, DecidableEq

/-- Embeds `handleSubmit` (second variant, lines 112-135; the first
variant is the fragment without the failure toast): the
`!query.trim()` guard, the `onSubmit` call, the `catch` toast, and the
untouched `query` state. -/
def handleSubmit (query : String) (outcome : QueryOutcome) : SubmitResult :=
  if jsTrim query = "" then
    { networkCalled := false, validationToast := true,
      failureToast := false, queryAfter := query }
  else
    match outcome with
    | .ok =>
      { networkCalled := true, validationToast := false,
        failureToast := false, queryAfter := query }
    | .fail =>
      { networkCalled := true, validationToast := false,
        failureToast := true, queryAfter := query }

/-! ## `POST /api/db-config` (`src/unnamed/part_012`, both variants)

The handler reads `useInMemory` from the body, swaps `global.storage`
(`new MemStorage()` when truthy, the imported base storage otherwise in
the second variant), and — on every non-throwing run — responds
`{message, config: {useInMemory, connected: true}}`: `connected` is the
literal `true`, no connection is consulted. -/

/-- What `global.storage` holds. -/
inductive StorageKind where
  | memStore
  | baseStore
deriving Repr, DecidableEq

/-- The `config` object of the response body. -/
structure DbConfig where
  useInMemory : Bool
  connected : Bool
deriving Repr, DecidableEq

/-- The JSON body of a successful response. -/
structure DbConfigResponse where
  message : String
  config : DbConfig
deriving Repr, DecidableEq

/-- Embeds the non-throwing path of the `/api/db-config` handler
(second variant, lines 44-59; the first differs only in leaving the
storage untouched when `useInMemory` is falsy).  `dbConnected` is the
actual state of any database connection in the environment; the handler
never reads it. -/
def dbConfigHandler (useInMemory : Bool) (_dbConnected : Bool)
    (st : StorageKind) : DbConfigResponse × StorageKind :=
  let newStorage := if useInMemory then StorageKind.memStore else st
  ({ message := "Database configuration updated",
     config := { useInMemory := useInMemory, connected := true } },
   newStorage)

/-! ## Concrete inputs for counterexamples and witnesses -/

/-- A node present in the payload. -/
def nodeA : Node :=
  { id := "a", label := "Person", name := "Alice" }

/-- A link whose `target` id ("b") names no node of the payload. -/
def danglingLink : Link :=
  { id := "e1", source := "a", target := "b", type := "KNOWS" }

/-- A payload with one node and one link whose target is absent. -/
def cexGraph : GraphData :=
  { nodes := [nodeA], links := [danglingLink] }

/-- A `GraphData` with no nodes. -/
def emptyGraph : GraphData := { nodes := [], links := [] }

/-- A payload whose `nodes` and `links` fields are present but empty:
what variant 2's guard receives for an empty graph. -/
def emptyRaw : RawGraphData := { nodes := some [], links := some [] }

/-- A node with a label outside the recognized set. -/
def widgetNode : Node :=
  { id := "w", label := "Widget", name := "w1" }

/-- A node with the Document label. -/
def docNode : Node :=
  { id := "d", label := "Document", name := "report" }

/-- A node whose label names an `Object.prototype` member. -/
def protoNode : Node :=
  { id := "t", label := "toString", name := "t1" }

/-- A node pinned by a drag (`fx`/`fy` set), as the caller's array holds
it just before `handleReset` runs. -/
def pinnedNode : Node :=
  { id := "p", label := "Person", name := "Pia",
    x := some 40, y := some 60, fx := some 40, fy := some 60 }

/-- A small valid PDF file. -/
def pdfA : UFile :=
  { name := "a.pdf", type := "application/pdf", size := 1024 }

/-- A second small valid PDF file. -/
def pdfB : UFile :=
  { name := "b.pdf", type := "application/pdf", size := 2048 }

/-- A 20 MB PDF: over the 15 MB ceiling. -/
def bigPdf : UFile :=
  { name := "big.pdf", type := "application/pdf", size := 20 * 1024 * 1024 }

/-- A file whose MIME type and extension are both outside the allowed
sets. -/
def exeFile : UFile :=
  { name := "tool.exe", type := "application/x-msdownload", size := 10 }

/-- An upload environment in which the transfer of `pdfA` is rejected
and every other transfer resolves. -/
def failOnA : UFile → UploadOutcome :=
  fun f => if f = pdfA then .fail else .ok

/-! ## Helper lemmas -/

/-- Every file the upload loop hands to `fileAPI.uploadFile` passed
validation (a validation failure hits `continue` first). -/
theorem uploadLoop_valid (oc : UFile → UploadOutcome) :
    ∀ (fs : List UFile) (err : Option String),
      ∀ f ∈ (uploadLoop oc fs err).attempted, validateFile f = none := by
  intro fs
  induction fs with
  | nil => intro err f hf; simp [uploadLoop] at hf
  | cons g rest ih =>
    intro err f hf
    rw [uploadLoop] at hf
    cases hv : validateFile g with
    | some msg =>
      rw [hv] at hf
      exact ih (some msg) f hf
    | none =>
      rw [hv] at hf
      cases ho : oc g with
      | ok =>
        rw [ho] at hf
        simp only [List.mem_cons] at hf
        rcases hf with rfl | hf
        · exact hv
        · exact ih err f hf
      | fail =>
        rw [ho] at hf
        simp only [List.mem_singleton] at hf
        subst hf
        exact hv

/-- The attempted files form an order-preserving sublist of the selected
files: uploads happen one at a time, in selection order. -/
theorem uploadLoop_sublist (oc : UFile → UploadOutcome) :
    ∀ (fs : List UFile) (err : Option String),
      (uploadLoop oc fs err).attempted.Sublist fs := by
  intro fs
  induction fs with
  | nil => intro err; simp [uploadLoop]
  | cons g rest ih =>
    intro err
    rw [uploadLoop]
    cases hv : validateFile g with
    | some msg => exact (ih (some msg)).cons g
    | none =>
      cases ho : oc g with
      | ok => exact (ih err).cons₂ g
      | fail => exact List.cons_sublist_cons.mpr (List.nil_sublist rest)

/-- Every attempted file but (possibly) the last one uploaded
successfully: a rejected transfer ends the loop at once. -/
theorem uploadLoop_abort (oc : UFile → UploadOutcome) :
    ∀ (fs : List UFile) (err : Option String),
      ∀ f ∈ (uploadLoop oc fs err).attempted, oc f = .fail →
        (uploadLoop oc fs err).completed = false ∧
        (uploadLoop oc fs err).errorMsg.isSome = true := by
  intro fs
  induction fs with
  | nil => intro err f hf; simp [uploadLoop] at hf
  | cons g rest ih =>
    intro err f hf hfail
    rw [uploadLoop] at hf ⊢
    cases hv : validateFile g with
    | some msg =>
      rw [hv] at hf
      dsimp only at hf ⊢
      exact ih (some msg) f hf hfail
    | none =>
      rw [hv] at hf
      dsimp only at hf ⊢
      cases ho : oc g with
      | ok =>
        rw [ho] at hf
        dsimp only at hf ⊢
        simp only [List.mem_cons] at hf
        rcases hf with rfl | hf
        · rw [hfail] at ho; cases ho
        · simpa using ih err f hf hfail
      | fail =>
        exact ⟨rfl, rfl⟩

/-- Every attempted file except possibly the last uploaded
successfully: once a transfer is rejected nothing further is
attempted. -/
theorem uploadLoop_dropLast (oc : UFile → UploadOutcome) :
    ∀ (fs : List UFile) (err : Option String),
      (uploadLoop oc fs err).attempted.dropLast.all
        (fun g => oc g == UploadOutcome.ok) = true := by
  intro fs
  induction fs with
  | nil => intro err; rfl
  | cons g rest ih =>
    intro err
    rw [uploadLoop]
    cases hv : validateFile g with
    | some msg => exact ih (some msg)
    | none =>
      cases ho : oc g with
      | ok =>
        dsimp only
        cases ha : (uploadLoop oc rest err).attempted with
        | nil => simp
        | cons a l =>
          rw [List.dropLast_cons₂, List.all_cons]
          refine (Bool.and_eq_true _ _).mpr ⟨by simp [ho], ?_⟩
          have h2 := ih err
          rw [ha] at h2
          exact h2
      | fail => rfl

/-- Restatement of `uploadLoop_valid` through the `uploadFiles`
entry point. -/
theorem uploadFiles_valid (oc : UFile → UploadOutcome) (fs : List UFile) :
    ∀ f ∈ (uploadFiles oc fs).attempted, validateFile f = none := by
  intro f hf
  rw [uploadFiles] at hf
  by_cases he : fs.isEmpty
  · rw [if_pos he] at hf; simp at hf
  · rw [if_neg he] at hf; exact uploadLoop_valid oc fs none f hf

/-- An all-whitespace string trims to the empty string. -/
theorem jsTrim_eq_empty_of_ws {s : String}
    (h : s.data.all Char.isWhitespace = true) : jsTrim s = "" := by
  have h1 : s.data.dropWhile Char.isWhitespace = [] := by
    rw [List.dropWhile_eq_nil_iff]
    intro x hx
    exact List.all_eq_true.mp h x hx
  simp [jsTrim, h1]

/-! ## Claim theorems -/

/-- C1, counterexample: on a payload with one node and one link whose
target id is absent, the drawn edge set still contains the link — the
renderer binds `data.links` unfiltered — so the drawn edge count (1)
differs from the count of links with both endpoints present (0),
refuting the claim that such links are excluded. -/
theorem C1_counterexample :
    (drawnEdges cexGraph).length = 1 ∧
    (linksWithEndpoints cexGraph).length = 0 ∧
    (drawnEdges cexGraph).length ≠ (linksWithEndpoints cexGraph).length := by
  decide

/-- C1, amended: the renderer performs no endpoint filtering: the drawn
edge and node counts equal `links.length` and `nodes.length`, and every
link of the payload — endpoints present or not — contributes its line
element to the drawn edge set. -/
theorem C1_drawn_counts (d : GraphData) :
    (drawnEdges d).length = d.links.length
  ∧ (drawnNodeCircles d).length = d.nodes.length
  ∧ ∀ l ∈ d.links,
      ({ linkId := l.id, typeText := l.type } : EdgeShape) ∈ drawnEdges d := by
  refine ⟨by simp [drawnEdges], by simp [drawnNodeCircles], ?_⟩
  intro l hl
  exact List.mem_map_of_mem _ hl

/-- C1 witness: the dangling link of the concrete payload is drawn. -/
theorem C1_drawn_counts_witness :
    ({ linkId := "e1", typeText := "KNOWS" } : EdgeShape) ∈ drawnEdges cexGraph :=
  (C1_drawn_counts cexGraph).2.2 danglingLink (by decide)

/-- C2, counterexample: for the second renderer variant, a payload with
present-but-empty `nodes` and `links` arrays shows the empty-state
overlay yet still reaches `d3.forceSimulation` — the guard
`!data.nodes` only tests presence, and an empty array is truthy — so a
force simulation is started, refuting the claim for this renderer. -/
theorem C2_counterexample :
    placeholderShown2 (some emptyRaw) = true ∧
    simulationStarted2 (some emptyRaw) = true := by
  decide

/-- C2, amended: for the first renderer, an empty-node payload shows
the placeholder and starts no simulation; the second renderer variant
shows its placeholder but nevertheless starts a force simulation over
the empty node list. -/
theorem C2_empty_state (d : GraphData) (raw : RawGraphData) :
    (d.nodes.length = 0 →
      simulationStarted1 d = false ∧ placeholderShown1 d = true)
  ∧ (raw.nodes = some [] → raw.links.isSome = true →
      placeholderShown2 (some raw) = true ∧
      simulationStarted2 (some raw) = true) := by
  constructor
  · intro h
    simp [simulationStarted1, effectRuns1, placeholderShown1, h]
  · intro h1 h2
    cases raw with
    | mk ns ls =>
      simp only at h1
      subst h1
      cases ls with
      | none => simp at h2
      | some l =>
        simp [placeholderShown2, simulationStarted2, effectRuns2]

/-- C2 witness: the first renderer on the empty payload. -/
theorem C2_empty_state_witness :
    simulationStarted1 emptyGraph = false ∧ placeholderShown1 emptyGraph = true :=
  (C2_empty_state emptyGraph emptyRaw).1 (by decide)

/-- C3, counterexample: the label "toString" is outside the recognized
set, yet `colors["toString"]` finds the truthy `Object.prototype`
member inherited by the object literal, so `colors[label] || fallback`
returns that function, not the designated fallback color — refuting the
claim that every unrecognized label resolves to the fallback (the
radius does fall back to 7, since the radius helper compares with
`===`). -/
theorem C3_counterexample :
    getNodeColor "toString" = NodeFill.inherited "toString"
  ∧ getNodeColor "toString" ≠ NodeFill.color "#a16207"
  ∧ "toString" ∉ recognizedLabels
  ∧ calculateNodeRadius protoNode = 7 := by
  decide

/-- C3, amended: fill color and radius are deterministic functions of
the label, and radius is total — base 7 for every label outside
Document / Person / Organization, which get strictly larger radii — but
the color fallback only applies to labels that are also not
`Object.prototype` member names: an unrecognized label outside that set
gets the fallback color `#a16207`, while a label naming a prototype
member yields the truthy inherited member instead of a color. -/
theorem C3_label_style (n m : Node) :
    (n.label = m.label →
      getNodeColor n.label = getNodeColor m.label ∧
      calculateNodeRadius n = calculateNodeRadius m)
  ∧ (n.label ∉ recognizedLabels → calculateNodeRadius n = 7)
  ∧ (n.label ∉ recognizedLabels → n.label ∉ objectProtoKeys →
      getNodeColor n.label = NodeFill.color "#a16207")
  ∧ (n.label ∈ objectProtoKeys →
      getNodeColor n.label = NodeFill.inherited n.label)
  ∧ ((n.label = "Document" ∨ n.label = "Person" ∨ n.label = "Organization") →
      calculateNodeRadius n > 7) := by
  refine ⟨?_, ?_, ?_, ?_, ?_⟩
  · intro h
    constructor
    · rw [h]
    · simp only [calculateNodeRadius, h]
  · intro h
    simp only [recognizedLabels, List.mem_cons, List.not_mem_nil, or_false,
      not_or] at h
    obtain ⟨h1, h2, h3, h4, h5, h6, h7, h8⟩ := h
    simp [calculateNodeRadius, h1, h2, h4]
  · intro h hp
    simp only [recognizedLabels, List.mem_cons, List.not_mem_nil, or_false,
      not_or] at h
    obtain ⟨h1, h2, h3, h4, h5, h6, h7, h8⟩ := h
    simp [getNodeColor, h1, h2, h3, h4, h5, h6, h7, h8, hp]
  · intro h
    have hall : ∀ x ∈ objectProtoKeys,
        getNodeColor x = NodeFill.inherited x := by decide
    exact hall n.label h
  · intro h
    rcases h with h | h | h <;> simp only [calculateNodeRadius, h] <;> decide

/-- C3 witness: an unrecognized non-prototype label resolves to the
fallback color and base radius, a prototype-member label to the
inherited member, and the Document label to a larger radius. -/
theorem C3_label_style_witness :
    (getNodeColor "Widget" = NodeFill.color "#a16207" ∧
     calculateNodeRadius widgetNode = 7) ∧
    getNodeColor "toString" = NodeFill.inherited "toString" ∧
    calculateNodeRadius docNode > 7 :=
  ⟨⟨(C3_label_style widgetNode widgetNode).2.2.1 (by decide) (by decide),
    (C3_label_style widgetNode widgetNode).2.1 (by decide)⟩,
   (C3_label_style protoNode protoNode).2.2.2.1 (by decide),
   (C3_label_style docNode docNode).2.2.2.2 (Or.inl (by decide))⟩

/-- C4, counterexample: the caller's node objects are changed by
rendering interactions.  `handleReset` writes `fx = fy = null` through
`data.nodes.forEach` on the caller's own array — a pinned node is
visibly altered — and `dragged` writes the cursor position into the
caller's node through `event.subject`; no internal copy exists, so the
claim that the snapshot's objects are unchanged is false. -/
theorem C4_counterexample :
    callerNodesAfterReset { nodes := [pinnedNode], links := [] } ≠ [pinnedNode]
  ∧ draggedSubject 3 4 nodeA ≠ nodeA := by
  decide

/-- C4, amended: the renderer mutates the caller's node objects in
place — drag writes the pin coordinates into `event.subject` (a node of
`data.nodes`) and reset clears `fx`/`fy` on every node of the caller's
array — while preserving identity and all non-layout fields; there is
no internal copy. -/
theorem C4_reset_drag_mutation (ns : List Node) (n : Node) (px py : Int)
    (i : Nat) (h : i < ns.length) :
    (handleResetNodes ns).length = ns.length
  ∧ (∃ h2 : i < (handleResetNodes ns).length,
      ((handleResetNodes ns).get ⟨i, h2⟩).fx = none
    ∧ ((handleResetNodes ns).get ⟨i, h2⟩).fy = none
    ∧ ((handleResetNodes ns).get ⟨i, h2⟩).id = (ns.get ⟨i, h⟩).id
    ∧ ((handleResetNodes ns).get ⟨i, h2⟩).label = (ns.get ⟨i, h⟩).label
    ∧ ((handleResetNodes ns).get ⟨i, h2⟩).name = (ns.get ⟨i, h⟩).name
    ∧ ((handleResetNodes ns).get ⟨i, h2⟩).properties = (ns.get ⟨i, h⟩).properties
    ∧ ((handleResetNodes ns).get ⟨i, h2⟩).x = (ns.get ⟨i, h⟩).x
    ∧ ((handleResetNodes ns).get ⟨i, h2⟩).y = (ns.get ⟨i, h⟩).y)
  ∧ (draggedSubject px py n).fx = some px
  ∧ (draggedSubject px py n).fy = some py
  ∧ (draggedSubject px py n).id = n.id
  ∧ (dragStartedSubject n).fx = n.x
  ∧ (dragStartedSubject n).fy = n.y
  ∧ (dragEndedSubject n).fx = none
  ∧ (dragEndedSubject n).fy = none := by
  have hlen : (handleResetNodes ns).length = ns.length := by
    simp [handleResetNodes]
  refine ⟨hlen, ⟨by omega, ?_⟩, rfl, rfl, rfl, rfl, rfl, rfl, rfl⟩
  simp [handleResetNodes, List.get_eq_getElem]

/-- C4 witness: the pinned node's pin is cleared by reset, and drag
pins the subject at the cursor. -/
theorem C4_reset_drag_mutation_witness :
    (handleResetNodes [pinnedNode]).length = [pinnedNode].length ∧
    (draggedSubject 7 9 nodeA).fx = some 7 :=
  ⟨(C4_reset_drag_mutation [pinnedNode] nodeA 7 9 0 (by decide)).1,
   (C4_reset_drag_mutation [pinnedNode] nodeA 7 9 0 (by decide)).2.2.1⟩

/-- C5, counterexample: two valid files are selected and the transfer
of the first is rejected; the handler surfaces an error, but the second
file — which would itself pass validation — is never attempted: the
`catch` wrapping the whole loop aborts the remaining uploads, refuting
the claim that a failure does not prevent them. -/
theorem C5_counterexample :
    (uploadFiles failOnA [pdfA, pdfB]).errorMsg.isSome = true
  ∧ pdfB ∉ (uploadFiles failOnA [pdfA, pdfB]).attempted
  ∧ validateFile pdfB = none := by
  decide

/-- C5, amended: accepted files are uploaded strictly one at a time in
selection order (the attempted sequence is an order-preserving sublist
of the selection, every attempted file passed validation, and every
attempted file except possibly the last succeeded); a failed upload
surfaces an error and aborts the loop, so the remaining files are not
uploaded. -/
theorem C5_sequential_abort (oc : UFile → UploadOutcome) (files : List UFile) :
    (uploadFiles oc files).attempted.Sublist files
  ∧ (∀ f ∈ (uploadFiles oc files).attempted, validateFile f = none)
  ∧ (uploadFiles oc files).attempted.dropLast.all
      (fun g => oc g == UploadOutcome.ok) = true
  ∧ (∀ f ∈ (uploadFiles oc files).attempted, oc f = .fail →
      (uploadFiles oc files).completed = false ∧
      (uploadFiles oc files).errorMsg.isSome = true) := by
  rw [uploadFiles]
  by_cases he : files.isEmpty
  · rw [if_pos he]
    refine ⟨List.nil_sublist _, ?_, rfl, ?_⟩ <;> intro f hf <;> simp at hf
  · rw [if_neg he]
    exact ⟨uploadLoop_sublist oc files none, uploadLoop_valid oc files none,
      uploadLoop_dropLast oc files none, uploadLoop_abort oc files none⟩

/-- C5 witness: a rejected transfer leaves the run uncompleted with an
error on display. -/
theorem C5_sequential_abort_witness :
    (uploadFiles failOnA [pdfB, pdfA]).completed = false ∧
    (uploadFiles failOnA [pdfB, pdfA]).errorMsg.isSome = true :=
  (C5_sequential_abort failOnA [pdfB, pdfA]).2.2.2 pdfA (by decide) (by decide)

/-- C6, confirmed: a file over the 15 MB ceiling, or whose MIME type
and extension are both outside the allowed sets, is rejected with a
visible error message and is never handed to the upload call; a `.pdf`
under 15 MB passes validation. -/
theorem C6_validation (f : UFile) (oc : UFile → UploadOutcome)
    (files : List UFile) :
    ((f.size > maxSize ∨
        (allowedTypes.contains f.type = false ∧
         validExtensions.any (fun e => jsEndsWith (jsToLower f.name) e) = false)) →
      (validateFile f).isSome = true ∧
      f ∉ (uploadFiles oc files).attempted)
  ∧ (jsEndsWith (jsToLower f.name) ".pdf" = true → f.size < maxSize →
      validateFile f = none) := by
  constructor
  · intro h
    have hsome : (validateFile f).isSome = true := by
      unfold validateFile
      dsimp only
      split
      · rfl
      · next hcond =>
        rcases h with hs | ⟨ht, he⟩
        · rw [if_pos hs]; rfl
        · exact absurd (by rw [ht, he]; rfl) hcond
    refine ⟨hsome, ?_⟩
    intro hf
    have := uploadFiles_valid oc files f hf
    rw [this] at hsome
    cases hsome
  · intro hpdf hsz
    have hext : validExtensions.any (fun e => jsEndsWith (jsToLower f.name) e) = true :=
      List.any_eq_true.mpr ⟨".pdf", by decide, hpdf⟩
    have hng : ¬ (f.size > maxSize) := by omega
    simp [validateFile, hext, hng]

/-- C6 witness: the 20 MB PDF and the executable are rejected and never
uploaded; the small PDF passes validation. -/
theorem C6_validation_witness :
    ((validateFile bigPdf).isSome = true ∧
     bigPdf ∉ (uploadFiles failOnA [bigPdf]).attempted)
  ∧ ((validateFile exeFile).isSome = true ∧
     exeFile ∉ (uploadFiles failOnA [exeFile]).attempted)
  ∧ validateFile pdfA = none :=
  ⟨(C6_validation bigPdf failOnA [bigPdf]).1 (Or.inl (by decide)),
   (C6_validation exeFile failOnA [exeFile]).1 (Or.inr ⟨by decide, by decide⟩),
   (C6_validation pdfA failOnA []).2 (by decide) (by decide)⟩

/-- C7, confirmed: an empty or whitespace-only query trips the
`!query.trim()` guard — the validation toast shows and `onSubmit` (the
network call) is never invoked — and whatever the submission outcome,
the query input text is untouched. -/
theorem C7_query_guard (query : String) (outcome : QueryOutcome) :
    (query.data.all Char.isWhitespace = true →
      (handleSubmit query outcome).networkCalled = false ∧
      (handleSubmit query outcome).validationToast = true)
  ∧ (handleSubmit query outcome).queryAfter = query := by
  constructor
  · intro h
    have ht := jsTrim_eq_empty_of_ws h
    simp [handleSubmit, ht]
  · cases outcome <;> unfold handleSubmit <;> split <;> rfl

/-- C7 witness: a three-space query on a run whose network call would
succeed. -/
theorem C7_query_guard_witness :
    (handleSubmit "   " QueryOutcome.ok).networkCalled = false ∧
    (handleSubmit "   " QueryOutcome.ok).validationToast = true :=
  (C7_query_guard "   " QueryOutcome.ok).1 (by decide)

/-- C8, confirmed: selection is mutually exclusive.  Clicking node A
then node B leaves exactly B selected; a link click clears any selected
node and a node click clears any selected link; a background click
clears both; and from the initial state every click sequence keeps at
most one entity selected. -/
theorem C8_selection_exclusive (s : Selection) (a b : Node) (l : Link)
    (es : List UiEvent) :
    selectionStep (selectionStep s (UiEvent.clickNode a)) (UiEvent.clickNode b)
      = { node := some b, link := none }
  ∧ (selectionStep s (UiEvent.clickLink l)).node = none
  ∧ (selectionStep s (UiEvent.clickLink l)).link = some l
  ∧ (selectionStep s (UiEvent.clickNode a)).link = none
  ∧ (selectionStep s (UiEvent.clickNode a)).node = some a
  ∧ selectionStep s UiEvent.clickCanvas = { node := none, link := none }
  ∧ atMostOneSelected (runClicks initSelection es) := by
  refine ⟨rfl, rfl, rfl, rfl, rfl, rfl, ?_⟩
  have key : ∀ (es2 : List UiEvent) (s0 : Selection),
      atMostOneSelected s0 → atMostOneSelected (runClicks s0 es2) := by
    intro es2
    induction es2 with
    | nil => intro s0 h0; exact h0
    | cons e rest ih =>
      intro s0 h0
      have hstep : atMostOneSelected (selectionStep s0 e) := by
        cases e <;> simp [selectionStep, atMostOneSelected]
      exact ih (selectionStep s0 e) hstep
  exact key es initSelection (Or.inl rfl)

/-- C9, counterexample: on a freshly mounted variant 1 component,
zoom-in applies scale 13/10 but can never update the `zoomTransform`
state (the handler's fresh behaviour has no "zoom" listener), so the
following zoom-out reads the same stale identity state and applies
scale 1·(1/1.3) = 10/13 — the click pair ends at 10/13, not back at the
prior scale 1, and off by far more than floating-point tolerance;
variant 2 composes factors 1.2 and 0.8 through the element transform,
landing at 24/25 of the prior scale. -/
theorem C9_counterexample :
    (handleZoomOut1 (handleZoomIn1 freshMountState)).applied.k = 10/13
  ∧ (handleZoomOut1 (handleZoomIn1 freshMountState)).applied.k
      ≠ freshMountState.applied.k
  ∧ |freshMountState.applied.k
      - (handleZoomOut1 (handleZoomIn1 freshMountState)).applied.k| > 1/100
  ∧ zoomOutScale2 (zoomInScale2 1) = 24/25 := by
  norm_num [handleZoomOut1, handleZoomIn1, freshMountState,
    currentTransform1, zoomIdentity, tScale, zoomInScale2, zoomOutScale2,
    abs_of_pos]

/-- C9, amended: variant 1's buttons never update the `zoomTransform`
state, so each click applies a transform computed from the stale state
scale k — zoom-in applies (13/10)k², zoom-out (10/13)k², and
zoom-in-then-zoom-out therefore ends at (10/13)k², not the prior scale
(10/13 from a fresh mount); variant 2 composes factors 1.2 and 0.8 to
(24/25) of the prior scale.  The reset control always restores the
documented default transform regardless of the prior state: the
identity in variant 1 and the centered 0.8-scale transform in
variant 2. -/
theorem C9_zoom_reset (s : ZoomState) (k w h : ℚ) :
    (handleZoomIn1 s).applied.k = (13/10) * (currentTransform1 s).k ^ 2
  ∧ (handleZoomIn1 s).zoomTransform = s.zoomTransform
  ∧ (handleZoomOut1 s).applied.k = (10/13) * (currentTransform1 s).k ^ 2
  ∧ (handleZoomOut1 s).zoomTransform = s.zoomTransform
  ∧ (handleZoomOut1 (handleZoomIn1 s)).applied.k
      = (10/13) * (currentTransform1 s).k ^ 2
  ∧ zoomOutScale2 (zoomInScale2 k) = (24/25) * k
  ∧ (handleResetZoom1 s).applied = zoomIdentity
  ∧ (handleResetZoom1 s).zoomTransform = s.zoomTransform
  ∧ resetView2 w h = { k := 4/5, x := w/10, y := h/10 } := by
  refine ⟨?_, rfl, ?_, rfl, ?_, ?_, rfl, rfl, ?_⟩
  · simp [handleZoomIn1, tScale]; ring
  · simp [handleZoomOut1, tScale]; ring
  · simp [handleZoomIn1, handleZoomOut1, currentTransform1, tScale]; ring
  · simp [zoomInScale2, zoomOutScale2]; ring
  · simp only [resetView2, tTranslate, tScale, zoomIdentity,
      ZoomTransform.mk.injEq]
    refine ⟨by norm_num, by ring, by ring⟩

/-- C10, confirmed: every non-throwing run of the `/api/db-config`
handler answers `config.connected = true` — the literal `true` is
written into the response — independent of the submitted `useInMemory`
flag and of the actual connection state, which the handler never
reads. -/
theorem C10_connected_always (b c c2 : Bool) (st : StorageKind) :
    (dbConfigHandler b c st).1.config.connected = true
  ∧ (dbConfigHandler b c st).1 = (dbConfigHandler b c2 st).1
  ∧ (dbConfigHandler true c st).1.config.connected
      = (dbConfigHandler false c st).1.config.connected :=
  ⟨rfl, rfl, rfl⟩

end GraphApp
